import Mathlib

/-!
Verification of the CXBIN reader (cxbin_reader.py).

We shallowly embed the reader: byte streams are lists of naturals, the zlib
inflate routine and the PNG encoder are external capabilities passed as
function parameters, 32-bit little-endian signed integers are modelled as
Int with explicit two-complement decoding, and every fallible step returns
Except. Each Python function is translated to a Lean definition of the same
name (modulo casing) below; the theorems at the end settle the frozen claims.
-/

deriving instance DecidableEq for Except

namespace Cxbin

/-- A byte buffer: list of byte values (each intended below 256). -/
abbrev ByteBuf := List Nat

/-- Error taxonomy of the reader.
eof models EOFError from read_exact; decompressError models zlib.error;
sizeMismatch models the ValueError raised by zlib_decompress when an
expected size was supplied; geomSizeMismatch models the geometry size
mismatch ValueError of parse_mesh_block; matTruncated and oldTruncated model
the two truncation ValueErrors of the take closures; npError models the
ValueError raised by numpy frombuffer or reshape. -/
inductive CxErr where
  | eof : CxErr
  | decompressError : CxErr
  | sizeMismatch : Nat → Int → CxErr
  | geomSizeMismatch : Nat → Int → CxErr
  | matTruncated : CxErr
  | oldTruncated : CxErr
  | npError : CxErr
deriving DecidableEq, Repr

/-- Assemble the first four bytes of a buffer as an unsigned little-endian
32-bit word (missing bytes read as 0; callers always pass exactly 4 bytes). -/
def leWord (b : ByteBuf) : Nat :=
  b.getD 0 0 + 256 * b.getD 1 0 + 65536 * b.getD 2 0 + 16777216 * b.getD 3 0

/-- Interpret an unsigned 32-bit word as a signed value (struct.unpack "<i"). -/
def toSigned32 (u : Nat) : Int :=
  if u < 2147483648 then (u : Int) else (u : Int) - 4294967296

/-- Little-endian encoding of a signed 32-bit value; used to build concrete
test files. -/
def i32le (n : Int) : ByteBuf :=
  let u := (n % 4294967296).toNat
  [u % 256, u / 256 % 256, u / 65536 % 256, u / 16777216 % 256]

/-- Python read_exact: read exactly n bytes from the stream or fail with
EOFError. The stream is modelled as the list of bytes not yet consumed. -/
def readExact (n : Nat) (s : ByteBuf) : Except CxErr (ByteBuf × ByteBuf) :=
  if s.length < n then .error .eof else .ok (s.take n, s.drop n)

/-- read_bytes with a possibly negative Python int count: f.read of a
negative count returns all remaining bytes, whose length can never equal the
negative count, so read_exact raises EOFError. -/
def readExactI (n : Int) (s : ByteBuf) : Except CxErr (ByteBuf × ByteBuf) :=
  if 0 ≤ n then readExact n.toNat s else .error .eof

/-- Python read_int_le: read 4 bytes and decode as signed little-endian. -/
def read_int_le (s : ByteBuf) : Except CxErr (Int × ByteBuf) :=
  match readExact 4 s with
  | .error e => .error e
  | .ok (b, r) => .ok (toSigned32 (leWord b), r)

/-- Read a list of k little-endian ints (the material-size header loops). -/
def readIntList (k : Nat) (s : ByteBuf) : Except CxErr (List Int × ByteBuf) :=
  match k with
  | 0 => .ok ([], s)
  | k + 1 =>
    match read_int_le s with
    | .error e => .error e
    | .ok (v, s1) =>
      match readIntList k s1 with
      | .error e => .error e
      | .ok (vs, s2) => .ok (v :: vs, s2)

/-- Python zlib_decompress: inflate the buffer via the external zlib
capability (none models zlib.error), then, when an expected size was
supplied, fail with the size-mismatch ValueError if the decompressed length
differs from it. -/
def zlib_decompress (inflate : ByteBuf → Option ByteBuf) (buf : ByteBuf)
    (expected : Option Int) : Except CxErr ByteBuf :=
  match inflate buf with
  | none => .error .decompressError
  | some raw =>
    match expected with
    | none => .ok raw
    | some e => if (raw.length : Int) = e then .ok raw
                else .error (.sizeMismatch raw.length e)

/-- Group a byte list into little-endian 32-bit words, dropping a trailing
fragment shorter than 4 bytes (numpy frombuffer body; the length check of
frombuffer is npFrombuffer below). Words stand for the 32-bit bit patterns;
float words are kept as raw patterns since the reader never computes with
them. -/
def toWords : ByteBuf → List Nat
  | b0 :: b1 :: b2 :: b3 :: rest =>
      (b0 + 256 * b1 + 65536 * b2 + 16777216 * b3) :: toWords rest
  | _ => []

/-- numpy frombuffer with a 4-byte dtype: fails unless the buffer length is a
multiple of the item size. -/
def npFrombuffer (b : ByteBuf) : Except CxErr (List Nat) :=
  if b.length % 4 = 0 then .ok (toWords b) else .error .npError

/-- Group a word list into rows of three (reshape body for (n,3)). -/
def chunk3 : List Nat → List (List Nat)
  | a :: b :: c :: rest => [a, b, c] :: chunk3 rest
  | _ => []

/-- Group a word list into rows of two (reshape body for (n,2)). -/
def chunk2 : List Nat → List (List Nat)
  | a :: b :: rest => [a, b] :: chunk2 rest
  | _ => []

/-- numpy reshape((n,3)): a nonnegative n demands exactly n*3 elements; any
negative n is treated by numpy as the inferred dimension, demanding a
multiple of 3. -/
def npReshape3 (elems : List Nat) (n : Int) : Except CxErr (List (List Nat)) :=
  if 0 ≤ n then
    if elems.length = n.toNat * 3 then .ok (chunk3 elems) else .error .npError
  else
    if elems.length % 3 = 0 then .ok (chunk3 elems) else .error .npError

/-- numpy reshape((n,2)), same rules with row width two. -/
def npReshape2 (elems : List Nat) (n : Int) : Except CxErr (List (List Nat)) :=
  if 0 ≤ n then
    if elems.length = n.toNat * 2 then .ok (chunk2 elems) else .error .npError
  else
    if elems.length % 2 = 0 then .ok (chunk2 elems) else .error .npError

/-- Python slice raw[:n] with a possibly negative stop index. -/
def pySliceTo (l : ByteBuf) (n : Int) : ByteBuf :=
  if 0 ≤ n then l.take n.toNat else l.take (l.length - (-n).toNat)

/-- Python slice raw[n:] with a possibly negative start index. -/
def pySliceFrom (l : ByteBuf) (n : Int) : ByteBuf :=
  if 0 ≤ n then l.drop n.toNat else l.drop (l.length - (-n).toNat)

/-- Size-accounting metadata of the geometry block (the meta dict). -/
structure MeshMeta where
  compressed_bytes : Int
  uncompressed_bytes : Nat
deriving DecidableEq, Repr

/-- Python parse_mesh_block: header of four ints, compressed payload,
decompress without an expected size, verify the decompressed length equals
vertNum*12 + faceNum*12, then split and reinterpret the two halves. -/
def parse_mesh_block (inflate : ByteBuf → Option ByteBuf) (s : ByteBuf) :
    Except CxErr (List (List Nat) × List (List Nat) × MeshMeta × ByteBuf) :=
  match read_int_le s with
  | .error e => .error e
  | .ok (_total_num, s1) =>
  match read_int_le s1 with
  | .error e => .error e
  | .ok (vert_num, s2) =>
  match read_int_le s2 with
  | .error e => .error e
  | .ok (face_num, s3) =>
  match read_int_le s3 with
  | .error e => .error e
  | .ok (compress_num, s4) =>
  match readExactI compress_num s4 with
  | .error e => .error e
  | .ok (cdata, s5) =>
  match zlib_decompress inflate cdata none with
  | .error e => .error e
  | .ok raw =>
  let expected : Int := vert_num * 3 * 4 + face_num * 3 * 4
  if (raw.length : Int) ≠ expected then
    .error (.geomSizeMismatch raw.length expected)
  else
    let v_buf := pySliceTo raw (vert_num * 12)
    let f_buf := pySliceFrom raw (vert_num * 12)
    match npFrombuffer v_buf with
    | .error e => .error e
    | .ok vWords =>
    match npReshape3 vWords vert_num with
    | .error e => .error e
    | .ok vertices =>
    match npFrombuffer f_buf with
    | .error e => .error e
    | .ok fWords =>
    match npReshape3 fWords face_num with
    | .error e => .error e
    | .ok faces =>
      .ok (vertices, faces, ⟨compress_num, raw.length⟩, s5)

/-- One texture entry (the dict with keys data, is_png, size_hint). -/
structure Texture where
  data : ByteBuf
  is_png : Bool
  size_hint : Option (Int × Int)
deriving DecidableEq, Repr

/-- CxbinMaterials: material blocks, material name (kept as the raw bytes up
to the first NUL, since the lenient utf-8 decode never fails), textures,
texture ids, and the temporarily stored UV arrays (the uvs_internal and
face_uvs_internal attributes, absent when the counts were nonpositive). -/
structure CxbinMaterials where
  material_blocks : List ByteBuf
  material_name : Option ByteBuf
  textures : List Texture
  texture_ids : Option (List Nat)
  uvs_internal : Option (List (List Nat))
  face_uvs_internal : Option (List (List Nat))
deriving DecidableEq, Repr

/-- CxbinMesh: the full decode result. -/
structure CxbinMesh where
  vertices : List (List Nat)
  faces : List (List Nat)
  uvs : Option (List (List Nat))
  face_uvs : Option (List (List Nat))
  materials : Option CxbinMaterials
  cxbin_version : Option Int
  compressed_bytes : Option Int
  uncompressed_bytes : Option Nat
deriving DecidableEq, Repr

/-- Effective stop index of a Python slice l[a:b] for the given length. -/
def pyStop (len : Nat) (b : Int) : Nat :=
  if 0 ≤ b then min b.toNat len else len - (-b).toNat

/-- The take closures of the material parsers: chunk = raw[ptr:ptr+n],
fail with the truncation ValueError unless the chunk has exactly n bytes,
else advance the pointer. -/
def pyTake (raw : ByteBuf) (ptr : Nat) (n : Int) (err : CxErr) :
    Except CxErr (ByteBuf × Nat) :=
  let chunk := (raw.take (pyStop raw.length ((ptr : Int) + n))).drop ptr
  if (chunk.length : Int) = n then .ok (chunk, ptr + n.toNat) else .error err

/-- Material name handling: bytes before the first NUL
(name_bytes.split at NUL, first component). -/
def splitAtNul (b : ByteBuf) : ByteBuf := b.takeWhile (fun x => x ≠ 0)

/-- The 8-byte PNG signature. -/
def pngSig : ByteBuf := [137, 80, 78, 71, 13, 10, 26, 10]

/-- buf.startswith of the PNG signature. -/
def pngSigCheck (b : ByteBuf) : Bool := pngSig.isPrefixOf b

/-- The opaque material-blob loop shared by both material parsers: a
declared size above zero takes that many bytes (failing with the given
truncation error on shortage); any other size appends an empty blob. -/
def takeBlobs (raw : ByteBuf) (ptr : Nat) (sizes : List Int) (err : CxErr) :
    Except CxErr (List ByteBuf × Nat) :=
  match sizes with
  | [] => .ok ([], ptr)
  | sz :: rest =>
    if 0 < sz then
      match pyTake raw ptr sz err with
      | .error e => .error e
      | .ok (b, ptr1) =>
        match takeBlobs raw ptr1 rest err with
        | .error e => .error e
        | .ok (bs, ptr2) => .ok (b :: bs, ptr2)
    else
      match takeBlobs raw ptr rest err with
      | .error e => .error e
      | .ok (bs, ptr1) => .ok ([] :: bs, ptr1)

/-- The texture-map loop of parse_material_block_v1_new: while maps remain,
stop if no 4-byte size field is left; read the signed size, replace a
negative size by zero, clamp a size overrunning the buffer to the remaining
length, slice the body, and record the texture with a PNG signature check
and no size hint. -/
def readMapsNew (raw : ByteBuf) (ptr : Nat) : Nat → List Texture
  | 0 => []
  | k + 1 =>
    if raw.length < ptr + 4 then []
    else
      let d := toSigned32 (leWord ((raw.drop ptr).take 4))
      let p1 := ptr + 4
      let sz : Nat := if d < 0 then 0 else min d.toNat (raw.length - p1)
      let buf := (raw.drop p1).take sz
      { data := buf, is_png := pngSigCheck buf, size_hint := none } ::
        readMapsNew raw (p1 + sz) k

/-- Header of parse_material_block_v1_new: the seven count fields, the
material-size list, and the compressed payload, with the remaining stream. -/
structure MatHeaderNew where
  total_num : Int
  uv_num : Int
  face_uv_num : Int
  texture_id_num : Int
  material_num : Int
  material_sizes : List Int
  mtl_name_len : Int
  map_type_count : Int
  compress_num : Int
  cdata : ByteBuf
  rest : ByteBuf
deriving DecidableEq, Repr

/-- Read the header of the new material block (all reads little-endian
ints; the size loop runs material_num times, none when nonpositive). -/
def readMatHeaderNew (s : ByteBuf) : Except CxErr MatHeaderNew :=
  match read_int_le s with
  | .error e => .error e
  | .ok (total_num, s1) =>
  match read_int_le s1 with
  | .error e => .error e
  | .ok (uv_num, s2) =>
  match read_int_le s2 with
  | .error e => .error e
  | .ok (face_uv_num, s3) =>
  match read_int_le s3 with
  | .error e => .error e
  | .ok (texture_id_num, s4) =>
  match read_int_le s4 with
  | .error e => .error e
  | .ok (material_num, s5) =>
  match readIntList material_num.toNat s5 with
  | .error e => .error e
  | .ok (material_sizes, s6) =>
  match read_int_le s6 with
  | .error e => .error e
  | .ok (mtl_name_len, s7) =>
  match read_int_le s7 with
  | .error e => .error e
  | .ok (map_type_count, s8) =>
  match read_int_le s8 with
  | .error e => .error e
  | .ok (compress_num, s9) =>
  match readExactI compress_num s9 with
  | .error e => .error e
  | .ok (cdata, s10) =>
    .ok ⟨total_num, uv_num, face_uv_num, texture_id_num, material_num,
         material_sizes, mtl_name_len, map_type_count, compress_num,
         cdata, s10⟩

/-- State of the new material parser after the fixed-layout phase (before
the texture-map loop): the decompressed buffer, the parsed fields, and the
walk pointer. -/
structure MatFixedNew where
  hdr : MatHeaderNew
  raw : ByteBuf
  uvs : Option (List (List Nat))
  face_uvs : Option (List (List Nat))
  texture_ids : Option (List Nat)
  material_blocks : List ByteBuf
  material_name : Option ByteBuf
  ptr : Nat
deriving DecidableEq, Repr

/-- Fixed-layout phase of parse_material_block_v1_new: decompress with the
declared total size as the expected length, then consume UVs, face UVs,
texture ids, material blobs and the material name in order. -/
def parseMatFixedNew (inflate : ByteBuf → Option ByteBuf) (s : ByteBuf) :
    Except CxErr MatFixedNew :=
  match readMatHeaderNew s with
  | .error e => .error e
  | .ok h =>
  match zlib_decompress inflate h.cdata (some h.total_num) with
  | .error e => .error e
  | .ok raw =>
  let step1 : Except CxErr (Option (List (List Nat)) × Nat) :=
    if 0 < h.uv_num then
      match pyTake raw 0 (h.uv_num * 2 * 4) .matTruncated with
      | .error e => .error e
      | .ok (b, p) =>
        match npFrombuffer b with
        | .error e => .error e
        | .ok ws =>
          match npReshape2 ws h.uv_num with
          | .error e => .error e
          | .ok rows => .ok (some rows, p)
    else .ok (none, 0)
  match step1 with
  | .error e => .error e
  | .ok (uvs, ptr1) =>
  let step2 : Except CxErr (Option (List (List Nat)) × Nat) :=
    if 0 < h.face_uv_num then
      match pyTake raw ptr1 (h.face_uv_num * 3 * 4) .matTruncated with
      | .error e => .error e
      | .ok (b, p) =>
        match npFrombuffer b with
        | .error e => .error e
        | .ok ws =>
          match npReshape3 ws h.face_uv_num with
          | .error e => .error e
          | .ok rows => .ok (some rows, p)
    else .ok (none, ptr1)
  match step2 with
  | .error e => .error e
  | .ok (face_uvs, ptr2) =>
  let step3 : Except CxErr (Option (List Nat) × Nat) :=
    if 0 < h.texture_id_num then
      match pyTake raw ptr2 (h.texture_id_num * 4) .matTruncated with
      | .error e => .error e
      | .ok (b, p) =>
        match npFrombuffer b with
        | .error e => .error e
        | .ok ws => .ok (some ws, p)
    else .ok (none, ptr2)
  match step3 with
  | .error e => .error e
  | .ok (tids, ptr3) =>
  match takeBlobs raw ptr3 h.material_sizes .matTruncated with
  | .error e => .error e
  | .ok (blobs, ptr4) =>
  let step5 : Except CxErr (Option ByteBuf × Nat) :=
    if 0 < h.mtl_name_len then
      match pyTake raw ptr4 h.mtl_name_len .matTruncated with
      | .error e => .error e
      | .ok (b, p) => .ok (some (splitAtNul b), p)
    else .ok (none, ptr4)
  match step5 with
  | .error e => .error e
  | .ok (name, ptr5) =>
    .ok ⟨h, raw, uvs, face_uvs, tids, blobs, name, ptr5⟩

/-- Python parse_material_block_v1_new: the fixed phase, then the
texture-map loop (which cannot fail), running max 0 mapTypeCount times. -/
def parse_material_block_v1_new (inflate : ByteBuf → Option ByteBuf)
    (s : ByteBuf) : Except CxErr (CxbinMaterials × ByteBuf) :=
  match parseMatFixedNew inflate s with
  | .error e => .error e
  | .ok fx =>
    .ok ({ material_blocks := fx.material_blocks,
           material_name := fx.material_name,
           textures := readMapsNew fx.raw fx.ptr fx.hdr.map_type_count.toNat,
           texture_ids := fx.texture_ids,
           uvs_internal := fx.uvs,
           face_uvs_internal := fx.face_uvs }, fx.hdr.rest)

/-- The texture-map loop of parse_material_block_v1_old: while maps remain,
stop if no 8-byte width and height pair is left; a nonpositive dimension
records an empty texture carrying the size hint; otherwise take
width*height*4 raw RGBA bytes (clamped to the remaining buffer) and try the
external PNG encoder: on success store the PNG bytes, on failure the raw
bytes. -/
def readMapsOld (pngEncode : Int → Int → ByteBuf → Option ByteBuf)
    (raw : ByteBuf) (ptr : Nat) : Nat → List Texture
  | 0 => []
  | k + 1 =>
    if raw.length < ptr + 8 then []
    else
      let w := toSigned32 (leWord ((raw.drop ptr).take 4))
      let h := toSigned32 (leWord ((raw.drop (ptr + 4)).take 4))
      let p1 := ptr + 8
      if w ≤ 0 ∨ h ≤ 0 then
        { data := [], is_png := false, size_hint := some (w, h) } ::
          readMapsOld pngEncode raw p1 k
      else
        let bc : Nat := min (w.toNat * h.toNat * 4) (raw.length - p1)
        let rgba := (raw.drop p1).take bc
        match pngEncode w h rgba with
        | some png =>
          { data := png, is_png := true, size_hint := some (w, h) } ::
            readMapsOld pngEncode raw (p1 + bc) k
        | none =>
          { data := rgba, is_png := false, size_hint := some (w, h) } ::
            readMapsOld pngEncode raw (p1 + bc) k

/-- Header of parse_material_block_v1_old: like the new header with extra
vertex and face counts. -/
structure MatHeaderOld where
  total_num : Int
  vert_num : Int
  face_num : Int
  uv_num : Int
  face_uv_num : Int
  texture_id_num : Int
  material_num : Int
  material_sizes : List Int
  mtl_name_len : Int
  map_type_count : Int
  compress_num : Int
  cdata : ByteBuf
  rest : ByteBuf
deriving DecidableEq, Repr

/-- Read the header of the legacy combined block. -/
def readMatHeaderOld (s : ByteBuf) : Except CxErr MatHeaderOld :=
  match read_int_le s with
  | .error e => .error e
  | .ok (total_num, s1) =>
  match read_int_le s1 with
  | .error e => .error e
  | .ok (vert_num, s2) =>
  match read_int_le s2 with
  | .error e => .error e
  | .ok (face_num, s3) =>
  match read_int_le s3 with
  | .error e => .error e
  | .ok (uv_num, s4) =>
  match read_int_le s4 with
  | .error e => .error e
  | .ok (face_uv_num, s5) =>
  match read_int_le s5 with
  | .error e => .error e
  | .ok (texture_id_num, s6) =>
  match read_int_le s6 with
  | .error e => .error e
  | .ok (material_num, s7) =>
  match readIntList material_num.toNat s7 with
  | .error e => .error e
  | .ok (material_sizes, s8) =>
  match read_int_le s8 with
  | .error e => .error e
  | .ok (mtl_name_len, s9) =>
  match read_int_le s9 with
  | .error e => .error e
  | .ok (map_type_count, s10) =>
  match read_int_le s10 with
  | .error e => .error e
  | .ok (compress_num, s11) =>
  match readExactI compress_num s11 with
  | .error e => .error e
  | .ok (cdata, s12) =>
    .ok ⟨total_num, vert_num, face_num, uv_num, face_uv_num, texture_id_num,
         material_num, material_sizes, mtl_name_len, map_type_count,
         compress_num, cdata, s12⟩

/-- State of the legacy parser after the fixed-layout phase. -/
structure MatFixedOld where
  hdr : MatHeaderOld
  raw : ByteBuf
  vertices : List (List Nat)
  faces : List (List Nat)
  uvs : Option (List (List Nat))
  face_uvs : Option (List (List Nat))
  texture_ids : Option (List Nat)
  material_blocks : List ByteBuf
  material_name : Option ByteBuf
  ptr : Nat
deriving DecidableEq, Repr

/-- Fixed-layout phase of parse_material_block_v1_old: decompress with the
declared total size as the expected length, then consume vertices, faces
(empty arrays when the count is nonpositive), UVs, face UVs, texture ids,
material blobs and the material name in order. -/
def parseMatFixedOld (inflate : ByteBuf → Option ByteBuf) (s : ByteBuf) :
    Except CxErr MatFixedOld :=
  match readMatHeaderOld s with
  | .error e => .error e
  | .ok h =>
  match zlib_decompress inflate h.cdata (some h.total_num) with
  | .error e => .error e
  | .ok raw =>
  let stepV : Except CxErr (List (List Nat) × Nat) :=
    if 0 < h.vert_num then
      match pyTake raw 0 (h.vert_num * 3 * 4) .oldTruncated with
      | .error e => .error e
      | .ok (b, p) =>
        match npFrombuffer b with
        | .error e => .error e
        | .ok ws =>
          match npReshape3 ws h.vert_num with
          | .error e => .error e
          | .ok rows => .ok (rows, p)
    else .ok ([], 0)
  match stepV with
  | .error e => .error e
  | .ok (vertices, ptrV) =>
  let stepF : Except CxErr (List (List Nat) × Nat) :=
    if 0 < h.face_num then
      match pyTake raw ptrV (h.face_num * 3 * 4) .oldTruncated with
      | .error e => .error e
      | .ok (b, p) =>
        match npFrombuffer b with
        | .error e => .error e
        | .ok ws =>
          match npReshape3 ws h.face_num with
          | .error e => .error e
          | .ok rows => .ok (rows, p)
    else .ok ([], ptrV)
  match stepF with
  | .error e => .error e
  | .ok (faces, ptrF) =>
  let step1 : Except CxErr (Option (List (List Nat)) × Nat) :=
    if 0 < h.uv_num then
      match pyTake raw ptrF (h.uv_num * 2 * 4) .oldTruncated with
      | .error e => .error e
      | .ok (b, p) =>
        match npFrombuffer b with
        | .error e => .error e
        | .ok ws =>
          match npReshape2 ws h.uv_num with
          | .error e => .error e
          | .ok rows => .ok (some rows, p)
    else .ok (none, ptrF)
  match step1 with
  | .error e => .error e
  | .ok (uvs, ptr1) =>
  let step2 : Except CxErr (Option (List (List Nat)) × Nat) :=
    if 0 < h.face_uv_num then
      match pyTake raw ptr1 (h.face_uv_num * 3 * 4) .oldTruncated with
      | .error e => .error e
      | .ok (b, p) =>
        match npFrombuffer b with
        | .error e => .error e
        | .ok ws =>
          match npReshape3 ws h.face_uv_num with
          | .error e => .error e
          | .ok rows => .ok (some rows, p)
    else .ok (none, ptr1)
  match step2 with
  | .error e => .error e
  | .ok (face_uvs, ptr2) =>
  let step3 : Except CxErr (Option (List Nat) × Nat) :=
    if 0 < h.texture_id_num then
      match pyTake raw ptr2 (h.texture_id_num * 4) .oldTruncated with
      | .error e => .error e
      | .ok (b, p) =>
        match npFrombuffer b with
        | .error e => .error e
        | .ok ws => .ok (some ws, p)
    else .ok (none, ptr2)
  match step3 with
  | .error e => .error e
  | .ok (tids, ptr3) =>
  match takeBlobs raw ptr3 h.material_sizes .oldTruncated with
  | .error e => .error e
  | .ok (blobs, ptr4) =>
  let step5 : Except CxErr (Option ByteBuf × Nat) :=
    if 0 < h.mtl_name_len then
      match pyTake raw ptr4 h.mtl_name_len .oldTruncated with
      | .error e => .error e
      | .ok (b, p) => .ok (some (splitAtNul b), p)
    else .ok (none, ptr4)
  match step5 with
  | .error e => .error e
  | .ok (name, ptr5) =>
    .ok ⟨h, raw, vertices, faces, uvs, face_uvs, tids, blobs, name, ptr5⟩

/-- Python parse_material_block_v1_old: the fixed phase, then the legacy
texture-map loop. Returns materials, vertices, faces and the rest of the
stream. -/
def parse_material_block_v1_old (inflate : ByteBuf → Option ByteBuf)
    (pngEncode : Int → Int → ByteBuf → Option ByteBuf) (s : ByteBuf) :
    Except CxErr (CxbinMaterials × List (List Nat) × List (List Nat) × ByteBuf) :=
  match parseMatFixedOld inflate s with
  | .error e => .error e
  | .ok fx =>
    .ok ({ material_blocks := fx.material_blocks,
           material_name := fx.material_name,
           textures := readMapsOld pngEncode fx.raw fx.ptr
                         fx.hdr.map_type_count.toNat,
           texture_ids := fx.texture_ids,
           uvs_internal := fx.uvs,
           face_uvs_internal := fx.face_uvs }, fx.vertices, fx.faces,
          fx.hdr.rest)

/-- Python load_cxbin: read the 4-byte header code, skip 12 bytes; a header
code other than 1 takes the versioned path (geometry block, then an optional
version int caught on end of input, then the new material block exactly when
the version equals 1); a header code of 1 takes the legacy path, which
records version 1 and no size counters. -/
def load_cxbin (inflate : ByteBuf → Option ByteBuf)
    (pngEncode : Int → Int → ByteBuf → Option ByteBuf) (file : ByteBuf) :
    Except CxErr CxbinMesh :=
  match readExact 4 file with
  | .error e => .error e
  | .ok (hc, r1) =>
  let head_code := toSigned32 (leWord hc)
  match readExact 12 r1 with
  | .error e => .error e
  | .ok (_pad, r2) =>
  if head_code ≠ 1 then
    match parse_mesh_block inflate r2 with
    | .error e => .error e
    | .ok (vertices, faces, meta, r3) =>
      match read_int_le r3 with
      | .error _ =>
        .ok { vertices := vertices, faces := faces, uvs := none,
              face_uvs := none, materials := none, cxbin_version := none,
              compressed_bytes := some meta.compressed_bytes,
              uncompressed_bytes := some meta.uncompressed_bytes }
      | .ok (version, r4) =>
        if version = 0 then
          .ok { vertices := vertices, faces := faces, uvs := none,
                face_uvs := none, materials := none,
                cxbin_version := some version,
                compressed_bytes := some meta.compressed_bytes,
                uncompressed_bytes := some meta.uncompressed_bytes }
        else if version = 1 then
          match parse_material_block_v1_new inflate r4 with
          | .error e => .error e
          | .ok (mats, _r5) =>
            .ok { vertices := vertices, faces := faces,
                  uvs := mats.uvs_internal,
                  face_uvs := mats.face_uvs_internal,
                  materials := some mats, cxbin_version := some version,
                  compressed_bytes := some meta.compressed_bytes,
                  uncompressed_bytes := some meta.uncompressed_bytes }
        else
          .ok { vertices := vertices, faces := faces, uvs := none,
                face_uvs := none, materials := none,
                cxbin_version := some version,
                compressed_bytes := some meta.compressed_bytes,
                uncompressed_bytes := some meta.uncompressed_bytes }
  else
    match parse_material_block_v1_old inflate pngEncode r2 with
    | .error e => .error e
    | .ok (mats, vertices, faces, _r3) =>
      .ok { vertices := vertices, faces := faces,
            uvs := mats.uvs_internal, face_uvs := mats.face_uvs_internal,
            materials := some mats, cxbin_version := some 1,
            compressed_bytes := none, uncompressed_bytes := none }

/-! Concrete fixtures used by the witnesses and counterexamples.
zlibEmptyStream is the byte sequence zlib.compress of the empty byte string
produces at the default level; inflate0 is a zlib capability defined on
exactly that stream, mapping it to the empty output. -/

/-- The zlib stream whose decompression is the empty byte string. -/
def zlibEmptyStream : ByteBuf := [120, 156, 3, 0, 0, 0, 0, 1]

/-- A zlib capability defined on exactly the empty-output stream. -/
def inflate0 : ByteBuf → Option ByteBuf :=
  fun b => if b = zlibEmptyStream then some [] else none

/-- A PNG encoder that always fails (any encode exception). -/
def pngNone : Int → Int → ByteBuf → Option ByteBuf := fun _ _ _ => none

/-- A PNG encoder that always succeeds with a fixed output. -/
def pngSome : Int → Int → ByteBuf → Option ByteBuf := fun _ _ _ => some [7, 7]

/-- Twelve reserved zero bytes. -/
def pad12 : ByteBuf := List.replicate 12 0

/-- Versioned geometry-only file: header code 2, 12 reserved bytes, mesh
block with totalNum 0, vertCount 0, faceCount 0, compressedLen 8 and the
empty-output zlib payload; the stream ends right after the payload. -/
def fileGeomOnly : ByteBuf :=
  i32le 2 ++ pad12 ++ i32le 0 ++ i32le 0 ++ i32le 0 ++ i32le 8 ++
    zlibEmptyStream

/-- The geometry-only file followed by a version field of 0. -/
def fileV0 : ByteBuf := fileGeomOnly ++ i32le 0

/-- The geometry-only file followed by an unknown version field of 7. -/
def fileV7 : ByteBuf := fileGeomOnly ++ i32le 7

/-- An empty new-format material block: all counts 0, compressedLen 8 and
the empty-output zlib payload. -/
def newMatEmptyStream : ByteBuf :=
  i32le 0 ++ i32le 0 ++ i32le 0 ++ i32le 0 ++ i32le 0 ++ i32le 0 ++
    i32le 0 ++ i32le 8 ++ zlibEmptyStream

/-- The geometry-only file followed by version 1 and an empty material
block. -/
def fileV1 : ByteBuf := fileGeomOnly ++ i32le 1 ++ newMatEmptyStream

/-- A legacy file: header code 1, 12 reserved bytes, all counts 0,
compressedLen 8 and the empty-output zlib payload. -/
def fileLegacy : ByteBuf :=
  i32le 1 ++ pad12 ++ i32le 0 ++ i32le 0 ++ i32le 0 ++ i32le 0 ++ i32le 0 ++
    i32le 0 ++ i32le 0 ++ i32le 0 ++ i32le 0 ++ i32le 8 ++ zlibEmptyStream

/-- A mesh-block stream declaring vertCount -1 and faceCount 1 with the
empty-output zlib payload, so the decompressed length 0 equals
vertCount*12 + faceCount*12. -/
def meshNegStream : ByteBuf :=
  i32le 0 ++ i32le (-1) ++ i32le 1 ++ i32le 8 ++ zlibEmptyStream

/-- A new-format material stream declaring material count -1 (so the size
loop runs zero times) and an empty payload. -/
def matNegCountStream : ByteBuf :=
  i32le 0 ++ i32le 0 ++ i32le 0 ++ i32le 0 ++ i32le (-1) ++ i32le 0 ++
    i32le 0 ++ i32le 8 ++ zlibEmptyStream

/-- A new-format material stream declaring total size 7 while the payload
decompresses to 0 bytes, triggering the size-mismatch failure. -/
def matBadTotalStream : ByteBuf :=
  i32le 7 ++ i32le 0 ++ i32le 0 ++ i32le 0 ++ i32le 0 ++ i32le 0 ++
    i32le 0 ++ i32le 8 ++ zlibEmptyStream

/-- A versioned file declaring vertCount 1 and faceCount 0 whose payload
decompresses to 0 bytes: a geometry size mismatch. -/
def fileMismatch : ByteBuf :=
  i32le 2 ++ pad12 ++ i32le 0 ++ i32le 1 ++ i32le 0 ++ i32le 8 ++
    zlibEmptyStream

/-- A zlib capability defined on the one-byte stream 1, inflating it to two
bytes. -/
def inflateW : ByteBuf → Option ByteBuf :=
  fun b => if b = [1] then some [2, 2] else none

/-! Helper lemmas shared by the claim theorems. -/

theorem toWords_length : ∀ b : ByteBuf, (toWords b).length = b.length / 4
  | [] => by simp [toWords]
  | [_] => by simp [toWords]
  | [_, _] => by simp [toWords]
  | [_, _, _] => by simp [toWords]
  | _ :: _ :: _ :: _ :: rest => by
      simp only [toWords, List.length_cons]
      rw [toWords_length rest]
      omega

theorem chunk3_len (n : Nat) : ∀ l : List Nat, l.length = 3 * n →
    (chunk3 l).length = n := by
  induction n with
  | zero =>
    intro l h
    have : l = [] := List.length_eq_zero.mp (by omega)
    subst this; rfl
  | succ m ih =>
    intro l h
    match l with
    | [] => simp at h
    | [_] => simp at h; omega
    | [_, _] => simp at h; omega
    | a :: b :: c :: rest =>
      simp only [chunk3, List.length_cons]
      rw [ih rest (by simp at h; omega)]

theorem readIntList_length (k : Nat) : ∀ s vs r,
    readIntList k s = .ok (vs, r) → vs.length = k := by
  induction k with
  | zero =>
    intro s vs r h
    simp only [readIntList] at h
    cases h; rfl
  | succ m ih =>
    intro s vs r h
    simp only [readIntList] at h
    split at h
    · cases h
    · split at h
      · cases h
      · rename_i heq
        cases h
        simp [ih _ _ _ heq]

theorem takeBlobs_length : ∀ (sizes : List Int) (raw : ByteBuf) (ptr : Nat)
    (err : CxErr) (bs : List ByteBuf) (p : Nat),
    takeBlobs raw ptr sizes err = .ok (bs, p) → bs.length = sizes.length := by
  intro sizes
  induction sizes with
  | nil =>
    intro raw ptr err bs p h
    simp only [takeBlobs] at h
    cases h; rfl
  | cons sz rest ih =>
    intro raw ptr err bs p h
    simp only [takeBlobs] at h
    by_cases hsz : 0 < sz
    · rw [if_pos hsz] at h
      split at h
      · cases h
      · split at h
        · cases h
        · rename_i heq
          cases h
          simp [ih _ _ _ _ _ heq]
    · rw [if_neg hsz] at h
      split at h
      · cases h
      · rename_i heq
        cases h
        simp [ih _ _ _ _ _ heq]

/-- C1 counterexample: a versioned geometry stream declaring vertCount -1
and faceCount 1 whose payload decompresses to 0 bytes, which equals
vertCount*12 + faceCount*12 = 0; the claim promises a successful decode
with matching lengths, but the reader fails with the numpy reshape error
while reinterpreting the face bytes, so decoding does not succeed. -/
theorem C1_counterexample :
    inflate0 zlibEmptyStream = some [] ∧
    ((0 : Int) = (-1) * 12 + 1 * 12) ∧
    parse_mesh_block inflate0 meshNegStream = .error .npError := by
  refine ⟨rfl, by norm_num, rfl⟩

/-- C1 (amended): over the versioned path, when the declared vertex and
face counts are nonnegative, a decompressed geometry payload of exactly
vertCount*12 + faceCount*12 bytes parses successfully with
vertices.length = vertCount, faces.length = faceCount and
uncompressed_bytes = vertCount*12 + faceCount*12; and whenever the
decompressed length differs from vertCount*12 + faceCount*12, the geometry
parse and the whole decode fail with the geometry-size-mismatch error. -/
theorem C1_geometry (inflate : ByteBuf → Option ByteBuf)
    (pngEncode : Int → Int → ByteBuf → Option ByteBuf)
    (file hc r1 pad s : ByteBuf) (total V F C : Int)
    (s1 s2 s3 s4 cdata s5 raw : ByteBuf)
    (hfc : readExact 4 file = .ok (hc, r1))
    (hhd : toSigned32 (leWord hc) ≠ 1)
    (hpad : readExact 12 r1 = .ok (pad, s))
    (h1 : read_int_le s = .ok (total, s1))
    (h2 : read_int_le s1 = .ok (V, s2))
    (h3 : read_int_le s2 = .ok (F, s3))
    (h4 : read_int_le s3 = .ok (C, s4))
    (h5 : readExactI C s4 = .ok (cdata, s5))
    (h6 : inflate cdata = some raw) :
    ((raw.length : Int) ≠ V * 12 + F * 12 →
        parse_mesh_block inflate s =
          .error (.geomSizeMismatch raw.length (V * 12 + F * 12)) ∧
        load_cxbin inflate pngEncode file =
          .error (.geomSizeMismatch raw.length (V * 12 + F * 12)))
    ∧ (0 ≤ V → 0 ≤ F → (raw.length : Int) = V * 12 + F * 12 →
        (parse_mesh_block inflate s).map
            (fun r => (r.1.length, r.2.1.length, r.2.2.1, r.2.2.2)) =
          .ok (V.toNat, F.toNat, ⟨C, raw.length⟩, s5)) := by
  have hexp : V * 3 * 4 + F * 3 * 4 = V * 12 + F * 12 := by ring
  constructor
  · intro hne
    have hpm : parse_mesh_block inflate s =
        .error (.geomSizeMismatch raw.length (V * 12 + F * 12)) := by
      unfold parse_mesh_block
      simp only [h1, h2, h3, h4, h5, zlib_decompress, h6, hexp]
      rw [if_pos hne]
    refine ⟨hpm, ?_⟩
    unfold load_cxbin
    simp only [hfc, hpad]
    rw [if_pos hhd]
    simp only [hpm]
  · intro hV hF hlen
    lift V to Nat using hV with v
    lift F to Nat using hF with f
    have hraw : raw.length = v * 12 + f * 12 := by exact_mod_cast hlen
    have htn : ((v : Int) * 12).toNat = v * 12 := by omega
    have hvbuf : pySliceTo raw ((v : Int) * 12) = raw.take (v * 12) := by
      unfold pySliceTo
      rw [if_pos (by positivity), htn]
    have hfbuf : pySliceFrom raw ((v : Int) * 12) = raw.drop (v * 12) := by
      unfold pySliceFrom
      rw [if_pos (by positivity), htn]
    have hvlen : (raw.take (v * 12)).length = v * 12 := by
      simp only [List.length_take]
      omega
    have hflen : (raw.drop (v * 12)).length = f * 12 := by
      simp only [List.length_drop]
      omega
    have hnb1 : npFrombuffer (raw.take (v * 12)) =
        .ok (toWords (raw.take (v * 12))) := by
      unfold npFrombuffer
      rw [if_pos (by rw [hvlen]; omega)]
    have hnb2 : npFrombuffer (raw.drop (v * 12)) =
        .ok (toWords (raw.drop (v * 12))) := by
      unfold npFrombuffer
      rw [if_pos (by rw [hflen]; omega)]
    have hrs1 : npReshape3 (toWords (raw.take (v * 12))) (v : Int) =
        .ok (chunk3 (toWords (raw.take (v * 12)))) := by
      unfold npReshape3
      rw [if_pos (by positivity), if_pos (by rw [toWords_length, hvlen]; omega)]
    have hrs2 : npReshape3 (toWords (raw.drop (v * 12))) (f : Int) =
        .ok (chunk3 (toWords (raw.drop (v * 12)))) := by
      unfold npReshape3
      rw [if_pos (by positivity), if_pos (by rw [toWords_length, hflen]; omega)]
    unfold parse_mesh_block
    simp only [h1, h2, h3, h4, h5, zlib_decompress, h6, hexp]
    rw [if_neg (by push_neg; exact hlen)]
    simp only [hvbuf, hfbuf, hnb1, hnb2, hrs1, hrs2, Except.map]
    rw [chunk3_len v _ (by rw [toWords_length, hvlen]; omega),
        chunk3_len f _ (by rw [toWords_length, hflen]; omega)]
    simp

/-- C1 witness: the geometry-only fixture decodes with zero-length vertex
and face arrays and exact byte accounting, and the mismatching fixture fails
the whole decode with the geometry-size-mismatch error. -/
theorem C1_witness :
    ((parse_mesh_block inflate0
        (i32le 0 ++ i32le 0 ++ i32le 0 ++ i32le 8 ++ zlibEmptyStream)).map
        (fun r => (r.1.length, r.2.1.length, r.2.2.1, r.2.2.2)) =
      .ok (0, 0, ⟨8, 0⟩, [])) ∧
    load_cxbin inflate0 pngNone fileMismatch =
      .error (.geomSizeMismatch 0 12) := by
  constructor
  · exact (C1_geometry inflate0 pngNone fileGeomOnly _ _ _ _ _ 0 0 8
      _ _ _ _ _ _ _ rfl (by decide) rfl rfl rfl rfl rfl rfl rfl).2
      (by norm_num) (by norm_num) (by norm_num)
  · exact ((C1_geometry inflate0 pngNone fileMismatch _ _ _ _ _ 1 0 8
      _ _ _ _ _ _ _ rfl (by decide) rfl rfl rfl rfl rfl rfl rfl).1
      (by norm_num)).2

/-- C2 counterexample: a legacy file (header code 1) and a versioned file
with version field 1 both decode successfully and both report the version
value 1 — the legacy result carries no distinct tag distinguishable from
the v1 result. -/
theorem C2_counterexample :
    (load_cxbin inflate0 pngNone fileLegacy).map (fun m => m.cxbin_version) =
      .ok (some 1) ∧
    (load_cxbin inflate0 pngNone fileV1).map (fun m => m.cxbin_version) =
      .ok (some 1) :=
  ⟨rfl, rfl⟩

/-- C2 (amended): a file whose header code equals 1 is decoded by the
legacy combined parser, and the returned document records version 1 — the
same value that a versioned file with version field 1 records — together
with absent size counters; there is no distinct legacy tag. -/
theorem C2_legacy (inflate : ByteBuf → Option ByteBuf)
    (pngEncode : Int → Int → ByteBuf → Option ByteBuf)
    (file hc r1 pad s : ByteBuf) (mats : CxbinMaterials)
    (verts faces : List (List Nat)) (r3 : ByteBuf)
    (hfc : readExact 4 file = .ok (hc, r1))
    (hhd : toSigned32 (leWord hc) = 1)
    (hpad : readExact 12 r1 = .ok (pad, s))
    (hold : parse_material_block_v1_old inflate pngEncode s =
      .ok (mats, verts, faces, r3)) :
    load_cxbin inflate pngEncode file =
      .ok { vertices := verts, faces := faces, uvs := mats.uvs_internal,
            face_uvs := mats.face_uvs_internal, materials := some mats,
            cxbin_version := some 1, compressed_bytes := none,
            uncompressed_bytes := none } := by
  unfold load_cxbin
  simp only [hfc, hpad]
  rw [if_neg (not_not_intro hhd)]
  simp only [hold]

/-- C2 witness: the legacy fixture decodes through the legacy parser with
version value 1. -/
theorem C2_witness :
    load_cxbin inflate0 pngNone fileLegacy =
      .ok { vertices := [], faces := [], uvs := none, face_uvs := none,
            materials := some { material_blocks := [], material_name := none,
                                textures := [], texture_ids := none,
                                uvs_internal := none,
                                face_uvs_internal := none },
            cxbin_version := some 1, compressed_bytes := none,
            uncompressed_bytes := none } :=
  C2_legacy inflate0 pngNone fileLegacy _ _ _ _ _ _ _ _
    rfl (by decide) rfl rfl

/-- C3 counterexample: the same geometry followed by a version field 0
versus no version field: both decode, but the results differ — the version
field is recorded as 0 in one and absent in the other, so the two decode
results are not identical. -/
theorem C3_counterexample :
    (load_cxbin inflate0 pngNone fileV0).map (fun m => m.cxbin_version) =
      .ok (some 0) ∧
    (load_cxbin inflate0 pngNone fileGeomOnly).map
        (fun m => m.cxbin_version) = .ok none ∧
    load_cxbin inflate0 pngNone fileV0 ≠
      load_cxbin inflate0 pngNone fileGeomOnly := by
  refine ⟨rfl, rfl, by decide⟩

/-- C3 (amended): a trailing version field 0 decodes like the missing
version field in every component — same geometry, absent materials and UVs,
same size counters — except that the recorded version is 0 rather than
absent. -/
theorem C3_version0 (inflate : ByteBuf → Option ByteBuf)
    (pngEncode : Int → Int → ByteBuf → Option ByteBuf)
    (file hc r1 pad s : ByteBuf) (verts faces : List (List Nat))
    (meta : MeshMeta) (r3 r4 : ByteBuf)
    (hfc : readExact 4 file = .ok (hc, r1))
    (hhd : toSigned32 (leWord hc) ≠ 1)
    (hpad : readExact 12 r1 = .ok (pad, s))
    (hpm : parse_mesh_block inflate s = .ok (verts, faces, meta, r3)) :
    (read_int_le r3 = .ok (0, r4) →
      load_cxbin inflate pngEncode file =
        .ok { vertices := verts, faces := faces, uvs := none,
              face_uvs := none, materials := none, cxbin_version := some 0,
              compressed_bytes := some meta.compressed_bytes,
              uncompressed_bytes := some meta.uncompressed_bytes })
    ∧ (read_int_le r3 = .error .eof →
      load_cxbin inflate pngEncode file =
        .ok { vertices := verts, faces := faces, uvs := none,
              face_uvs := none, materials := none, cxbin_version := none,
              compressed_bytes := some meta.compressed_bytes,
              uncompressed_bytes := some meta.uncompressed_bytes }) := by
  constructor
  · intro hv
    unfold load_cxbin
    simp only [hfc, hpad]
    rw [if_pos hhd]
    simp only [hpm, hv]
    norm_num
  · intro hv
    unfold load_cxbin
    simp only [hfc, hpad]
    rw [if_pos hhd]
    simp only [hpm, hv]

/-- C3 witness: the two fixtures exercise both outcomes. -/
theorem C3_witness :
    load_cxbin inflate0 pngNone fileV0 =
      .ok { vertices := [], faces := [], uvs := none, face_uvs := none,
            materials := none, cxbin_version := some 0,
            compressed_bytes := some 8, uncompressed_bytes := some 0 } ∧
    load_cxbin inflate0 pngNone fileGeomOnly =
      .ok { vertices := [], faces := [], uvs := none, face_uvs := none,
            materials := none, cxbin_version := none,
            compressed_bytes := some 8, uncompressed_bytes := some 0 } := by
  constructor
  · exact (C3_version0 inflate0 pngNone fileV0 _ _ _ _ _ _ _ _ []
      rfl (by decide) rfl rfl).1 rfl
  · exact (C3_version0 inflate0 pngNone fileGeomOnly _ _ _ _ _ _ _ _ []
      rfl (by decide) rfl rfl).2 rfl

/-- C7: a versioned file whose stream ends right after the geometry
payload decodes successfully into the geometry-only result: version absent,
materials, UVs and face UVs absent, size counters present. -/
theorem C7_geometry_only (inflate : ByteBuf → Option ByteBuf)
    (pngEncode : Int → Int → ByteBuf → Option ByteBuf)
    (file hc r1 pad s : ByteBuf) (verts faces : List (List Nat))
    (meta : MeshMeta)
    (hfc : readExact 4 file = .ok (hc, r1))
    (hhd : toSigned32 (leWord hc) ≠ 1)
    (hpad : readExact 12 r1 = .ok (pad, s))
    (hpm : parse_mesh_block inflate s = .ok (verts, faces, meta, [])) :
    load_cxbin inflate pngEncode file =
      .ok { vertices := verts, faces := faces, uvs := none,
            face_uvs := none, materials := none, cxbin_version := none,
            compressed_bytes := some meta.compressed_bytes,
            uncompressed_bytes := some meta.uncompressed_bytes } := by
  unfold load_cxbin
  simp only [hfc, hpad]
  rw [if_pos hhd]
  simp only [hpm]
  rfl

/-- C7 witness: the geometry-only fixture. -/
theorem C7_witness :
    load_cxbin inflate0 pngNone fileGeomOnly =
      .ok { vertices := [], faces := [], uvs := none, face_uvs := none,
            materials := none, cxbin_version := none,
            compressed_bytes := some 8, uncompressed_bytes := some 0 } :=
  C7_geometry_only inflate0 pngNone fileGeomOnly _ _ _ _ _ _ _
    rfl (by decide) rfl rfl

/-- C9: a versioned file whose version field holds any value other than 1
(0 or unknown) surfaces that raw value in the result, and no material block
is parsed: materials, UVs and face UVs are absent. -/
theorem C9_version_surfaced (inflate : ByteBuf → Option ByteBuf)
    (pngEncode : Int → Int → ByteBuf → Option ByteBuf)
    (file hc r1 pad s : ByteBuf) (verts faces : List (List Nat))
    (meta : MeshMeta) (r3 r4 : ByteBuf) (ver : Int)
    (hfc : readExact 4 file = .ok (hc, r1))
    (hhd : toSigned32 (leWord hc) ≠ 1)
    (hpad : readExact 12 r1 = .ok (pad, s))
    (hpm : parse_mesh_block inflate s = .ok (verts, faces, meta, r3))
    (hv : read_int_le r3 = .ok (ver, r4))
    (hne : ver ≠ 1) :
    load_cxbin inflate pngEncode file =
      .ok { vertices := verts, faces := faces, uvs := none,
            face_uvs := none, materials := none, cxbin_version := some ver,
            compressed_bytes := some meta.compressed_bytes,
            uncompressed_bytes := some meta.uncompressed_bytes } := by
  unfold load_cxbin
  simp only [hfc, hpad]
  rw [if_pos hhd]
  simp only [hpm, hv]
  by_cases h0 : ver = 0
  · rw [if_pos h0]
  · rw [if_neg h0, if_neg hne]

/-- C9 witness: version values 7 and 0 are both surfaced. -/
theorem C9_witness :
    load_cxbin inflate0 pngNone fileV7 =
      .ok { vertices := [], faces := [], uvs := none, face_uvs := none,
            materials := none, cxbin_version := some 7,
            compressed_bytes := some 8, uncompressed_bytes := some 0 } ∧
    load_cxbin inflate0 pngNone fileV0 =
      .ok { vertices := [], faces := [], uvs := none, face_uvs := none,
            materials := none, cxbin_version := some 0,
            compressed_bytes := some 8, uncompressed_bytes := some 0 } := by
  constructor
  · exact C9_version_surfaced inflate0 pngNone fileV7 _ _ _ _ _ _ _ _ _ 7
      rfl (by decide) rfl rfl rfl (by decide)
  · exact C9_version_surfaced inflate0 pngNone fileV0 _ _ _ _ _ _ _ _ _ 0
      rfl (by decide) rfl rfl rfl (by decide)

/-- The compressed-bytes entry of the geometry meta equals the declared
compressed-length field of the header. -/
theorem parse_mesh_block_meta (inflate : ByteBuf → Option ByteBuf)
    (s : ByteBuf) (total V F C : Int) (s1 s2 s3 s4 : ByteBuf)
    (verts faces : List (List Nat)) (meta : MeshMeta) (r3 : ByteBuf)
    (h1 : read_int_le s = .ok (total, s1))
    (h2 : read_int_le s1 = .ok (V, s2))
    (h3 : read_int_le s2 = .ok (F, s3))
    (h4 : read_int_le s3 = .ok (C, s4))
    (hpm : parse_mesh_block inflate s = .ok (verts, faces, meta, r3)) :
    meta.compressed_bytes = C := by
  unfold parse_mesh_block at hpm
  simp only [h1, h2, h3, h4] at hpm
  split at hpm
  · cases hpm
  · split at hpm
    · cases hpm
    · split at hpm
      · cases hpm
      · split at hpm
        · cases hpm
        · split at hpm
          · cases hpm
          · split at hpm
            · cases hpm
            · split at hpm
              · cases hpm
              · cases hpm
                rfl

/-- C4 counterexample: the legacy fixture decodes successfully, its header
declares a compressed length of 8, yet the result reports no
compressed-bytes counter at all. -/
theorem C4_counterexample :
    (load_cxbin inflate0 pngNone fileLegacy).map
        (fun m => m.compressed_bytes) = .ok none ∧
    (readMatHeaderOld (fileLegacy.drop 16)).map
        (fun h => h.compress_num) = .ok 8 :=
  ⟨rfl, rfl⟩

/-- C4 (amended): for every versioned file (header code != 1) that decodes
successfully, the compressed-bytes counter in the result equals the declared
compressed-length field read from the geometry header; legacy files (header
code 1) report no compressed-bytes counter. -/
theorem C4_compressed (inflate : ByteBuf → Option ByteBuf)
    (pngEncode : Int → Int → ByteBuf → Option ByteBuf)
    (file hc r1 pad s : ByteBuf) (total V F C : Int)
    (s1 s2 s3 s4 : ByteBuf) (m : CxbinMesh)
    (hfc : readExact 4 file = .ok (hc, r1))
    (hhd : toSigned32 (leWord hc) ≠ 1)
    (hpad : readExact 12 r1 = .ok (pad, s))
    (h1 : read_int_le s = .ok (total, s1))
    (h2 : read_int_le s1 = .ok (V, s2))
    (h3 : read_int_le s2 = .ok (F, s3))
    (h4 : read_int_le s3 = .ok (C, s4))
    (hok : load_cxbin inflate pngEncode file = .ok m) :
    m.compressed_bytes = some C := by
  unfold load_cxbin at hok
  simp only [hfc, hpad] at hok
  rw [if_pos hhd] at hok
  cases hpm : parse_mesh_block inflate s with
  | error e =>
    simp only [hpm] at hok
    cases hok
  | ok r =>
    obtain ⟨verts, faces, meta, r3⟩ := r
    have hmc : meta.compressed_bytes = C :=
      parse_mesh_block_meta inflate s total V F C s1 s2 s3 s4
        verts faces meta r3 h1 h2 h3 h4 hpm
    simp only [hpm] at hok
    split at hok
    · cases hok
      simp [hmc]
    · split at hok
      · cases hok
        simp [hmc]
      · split at hok
        · split at hok
          · cases hok
          · cases hok
            simp [hmc]
        · cases hok
          simp [hmc]

/-- C4 witness: the geometry-only fixture reports compressed bytes 8, the
declared compressed-length field. -/
theorem C4_witness :
    ({ vertices := [], faces := [], uvs := none, face_uvs := none,
       materials := none, cxbin_version := none, compressed_bytes := some 8,
       uncompressed_bytes := some 0 } : CxbinMesh).compressed_bytes =
      some 8 :=
  C4_compressed inflate0 pngNone fileGeomOnly _ _ _ _ 0 0 0 8 _ _ _ _ _
    rfl (by decide) rfl rfl rfl rfl rfl rfl

/-- C8: the compressed-block decoder fails with the size-mismatch error
carrying the got and expected values whenever an expected length was
supplied and the inflated length differs (and with the decompression error
on a malformed stream); the new material parser decompresses with the
declared total size as the expected length and propagates such a failure,
aborting the whole material-block decode. -/
theorem C8_size_mismatch (inflate : ByteBuf → Option ByteBuf)
    (buf raw s : ByteBuf) (h : MatHeaderNew) (e : CxErr) (exp : Int) :
    (inflate buf = some raw → (raw.length : Int) ≠ exp →
      zlib_decompress inflate buf (some exp) =
        .error (.sizeMismatch raw.length exp))
    ∧ (inflate buf = none →
      zlib_decompress inflate buf (some exp) = .error .decompressError)
    ∧ (readMatHeaderNew s = .ok h →
      zlib_decompress inflate h.cdata (some h.total_num) = .error e →
      parse_material_block_v1_new inflate s = .error e) := by
  refine ⟨?_, ?_, ?_⟩
  · intro hinf hne
    unfold zlib_decompress
    simp only [hinf]
    rw [if_neg hne]
  · intro hinf
    unfold zlib_decompress
    simp only [hinf]
  · intro hh hz
    unfold parse_material_block_v1_new parseMatFixedNew
    simp only [hh, hz]

/-- C8 witness: a two-byte inflate against expected length 5 reports
mismatch (2, 5); a stream the inflater rejects reports the decompression
error; the bad-total fixture aborts the new material parse with
mismatch (0, 7). -/
theorem C8_witness :
    zlib_decompress inflateW [1] (some 5) = .error (.sizeMismatch 2 5) ∧
    zlib_decompress inflateW [9] (some 0) = .error .decompressError ∧
    parse_material_block_v1_new inflate0 matBadTotalStream =
      .error (.sizeMismatch 0 7) := by
  refine ⟨?_, ?_, ?_⟩
  · exact (C8_size_mismatch inflateW [1] [2, 2] []
      ⟨0, 0, 0, 0, 0, [], 0, 0, 0, [], []⟩ .eof 5).1 rfl (by norm_num)
  · exact (C8_size_mismatch inflateW [9] [] []
      ⟨0, 0, 0, 0, 0, [], 0, 0, 0, [], []⟩ .eof 0).2.1 rfl
  · exact (C8_size_mismatch inflate0 [] [] matBadTotalStream _
      (.sizeMismatch 0 7) 0).2.2 rfl rfl

/-- One-step unfolding of the new texture-map loop. -/
theorem readMapsNew_succ (raw : ByteBuf) (ptr k : Nat) :
    readMapsNew raw ptr (k + 1) =
      if raw.length < ptr + 4 then []
      else
        let d := toSigned32 (leWord ((raw.drop ptr).take 4))
        let sz : Nat := if d < 0 then 0
                        else min d.toNat (raw.length - (ptr + 4))
        { data := (raw.drop (ptr + 4)).take sz,
          is_png := pngSigCheck ((raw.drop (ptr + 4)).take sz),
          size_hint := none } ::
          readMapsNew raw (ptr + 4 + sz) k := rfl

/-- One-step unfolding of the legacy texture-map loop. -/
theorem readMapsOld_succ (pngE : Int → Int → ByteBuf → Option ByteBuf)
    (raw : ByteBuf) (ptr k : Nat) :
    readMapsOld pngE raw ptr (k + 1) =
      if raw.length < ptr + 8 then []
      else
        let w := toSigned32 (leWord ((raw.drop ptr).take 4))
        let h := toSigned32 (leWord ((raw.drop (ptr + 4)).take 4))
        if w ≤ 0 ∨ h ≤ 0 then
          { data := [], is_png := false, size_hint := some (w, h) } ::
            readMapsOld pngE raw (ptr + 8) k
        else
          let bc : Nat := min (w.toNat * h.toNat * 4)
                            (raw.length - (ptr + 8))
          match pngE w h ((raw.drop (ptr + 8)).take bc) with
          | some png =>
            { data := png, is_png := true, size_hint := some (w, h) } ::
              readMapsOld pngE raw (ptr + 8 + bc) k
          | none =>
            { data := (raw.drop (ptr + 8)).take bc, is_png := false,
              size_hint := some (w, h) } ::
              readMapsOld pngE raw (ptr + 8 + bc) k := rfl

/-- C5: in the new material parser texture loop, a declared body size
overrunning the buffer is clamped to the remaining byte count and decoding
continues (the data length equals the remaining count, not the declared
one); a negative declared size yields an empty texture; an unreadable
4-byte size field stops the loop (later maps dropped, earlier cons cells
kept by construction); and whenever the fixed phase succeeds the whole
material parse succeeds with exactly the loop result as textures. -/
theorem C5_textures (inflate : ByteBuf → Option ByteBuf)
    (raw raw2 s : ByteBuf) (ptr p2 k k2 : Nat) (d : Int) (fx : MatFixedNew)
    (hle : ptr + 4 ≤ raw.length)
    (hval : d = toSigned32 (leWord ((raw.drop ptr).take 4))) :
    (0 ≤ d → (raw.length : Int) < ptr + 4 + d →
      readMapsNew raw ptr (k + 1) =
        { data := raw.drop (ptr + 4),
          is_png := pngSigCheck (raw.drop (ptr + 4)), size_hint := none } ::
          readMapsNew raw raw.length k ∧
      (raw.drop (ptr + 4)).length = raw.length - (ptr + 4))
    ∧ (d < 0 →
      readMapsNew raw ptr (k + 1) =
        { data := [], is_png := false, size_hint := none } ::
          readMapsNew raw (ptr + 4) k)
    ∧ (raw2.length < p2 + 4 → readMapsNew raw2 p2 k2 = [])
    ∧ (parseMatFixedNew inflate s = .ok fx →
      parse_material_block_v1_new inflate s =
        .ok ({ material_blocks := fx.material_blocks,
               material_name := fx.material_name,
               textures := readMapsNew fx.raw fx.ptr
                             fx.hdr.map_type_count.toNat,
               texture_ids := fx.texture_ids, uvs_internal := fx.uvs,
               face_uvs_internal := fx.face_uvs }, fx.hdr.rest)) := by
  have hnotlt : ¬ raw.length < ptr + 4 := not_lt.mpr hle
  refine ⟨?_, ?_, ?_, ?_⟩
  · intro hd0 hover
    have hmin : min d.toNat (raw.length - (ptr + 4)) =
        raw.length - (ptr + 4) := by omega
    have hdl : (raw.drop (ptr + 4)).length = raw.length - (ptr + 4) := by
      simp [List.length_drop]
    have htake : (raw.drop (ptr + 4)).take (raw.length - (ptr + 4)) =
        raw.drop (ptr + 4) := by
      rw [← hdl, List.take_length]
    have hadv : ptr + 4 + (raw.length - (ptr + 4)) = raw.length := by omega
    refine ⟨?_, hdl⟩
    rw [readMapsNew_succ, if_neg hnotlt]
    dsimp only
    rw [← hval, if_neg (not_lt.mpr hd0), hmin, htake, hadv]
  · intro hdneg
    rw [readMapsNew_succ, if_neg hnotlt]
    dsimp only
    rw [← hval, if_pos hdneg]
    simp only [List.take_zero, Nat.add_zero]
    rfl
  · intro hlt
    cases k2 with
    | zero => rfl
    | succ n => rw [readMapsNew_succ, if_pos hlt]
  · intro hfx
    unfold parse_material_block_v1_new
    simp only [hfx]

/-- C5 witness: a map declaring 5 body bytes with only 2 remaining keeps
the 2 available bytes; a negative declared size yields an empty texture; a
buffer too short for the size field yields no maps; the empty material
fixture parses successfully. -/
theorem C5_witness :
    readMapsNew [5, 0, 0, 0, 1, 2] 0 1 =
      [{ data := [1, 2], is_png := false, size_hint := none }] ∧
    readMapsNew [255, 255, 255, 255] 0 1 =
      [{ data := [], is_png := false, size_hint := none }] ∧
    readMapsNew [9] 0 3 = [] ∧
    parse_material_block_v1_new inflate0 newMatEmptyStream =
      .ok ({ material_blocks := [], material_name := none, textures := [],
             texture_ids := none, uvs_internal := none,
             face_uvs_internal := none }, []) := by
  refine ⟨?_, ?_, ?_, ?_⟩
  · exact ((C5_textures inflate0 [5, 0, 0, 0, 1, 2] [] [] 0 0 0 0 5
      ⟨⟨0, 0, 0, 0, 0, [], 0, 0, 0, [], []⟩, [], none, none, none, [],
        none, 0⟩ (by norm_num) (by decide)).1 (by norm_num) (by norm_num)).1
  · exact (C5_textures inflate0 [255, 255, 255, 255] [] [] 0 0 0 0 (-1)
      ⟨⟨0, 0, 0, 0, 0, [], 0, 0, 0, [], []⟩, [], none, none, none, [],
        none, 0⟩ (by norm_num) (by decide)).2.1 (by norm_num)
  · exact (C5_textures inflate0 [5, 0, 0, 0, 1, 2] [9] [] 0 0 0 3 5
      ⟨⟨0, 0, 0, 0, 0, [], 0, 0, 0, [], []⟩, [], none, none, none, [],
        none, 0⟩ (by norm_num) (by decide)).2.2.1 (by norm_num)
  · exact (C5_textures inflate0 [5, 0, 0, 0, 1, 2] [] newMatEmptyStream
      0 0 0 0 5 _ (by norm_num) (by decide)).2.2.2 rfl

/-- C6: in the legacy texture loop, a map with positive width and height
whose full width*height*4 raw bytes are available stores the PNG encoding
with is_png true and the (width, height) size hint when the encoder
succeeds, and stores the raw bytes unmodified with is_png false and the
same size hint when the encoder fails; in either case the loop continues,
and whenever the fixed phase succeeds the whole legacy parse succeeds
whatever the encoder does — encode failure never aborts the decode. -/
theorem C6_legacy_textures (inflate : ByteBuf → Option ByteBuf)
    (pngE : Int → Int → ByteBuf → Option ByteBuf)
    (raw s : ByteBuf) (ptr k : Nat) (w h : Int) (png : ByteBuf)
    (fx : MatFixedOld)
    (h8 : ptr + 8 ≤ raw.length)
    (hw : w = toSigned32 (leWord ((raw.drop ptr).take 4)))
    (hh : h = toSigned32 (leWord ((raw.drop (ptr + 4)).take 4)))
    (hwp : 0 < w) (hhp : 0 < h)
    (hfit : ptr + 8 + w.toNat * h.toNat * 4 ≤ raw.length) :
    (pngE w h ((raw.drop (ptr + 8)).take (w.toNat * h.toNat * 4)) =
        some png →
      readMapsOld pngE raw ptr (k + 1) =
        { data := png, is_png := true, size_hint := some (w, h) } ::
          readMapsOld pngE raw (ptr + 8 + w.toNat * h.toNat * 4) k)
    ∧ (pngE w h ((raw.drop (ptr + 8)).take (w.toNat * h.toNat * 4)) =
        none →
      readMapsOld pngE raw ptr (k + 1) =
        { data := (raw.drop (ptr + 8)).take (w.toNat * h.toNat * 4),
          is_png := false, size_hint := some (w, h) } ::
          readMapsOld pngE raw (ptr + 8 + w.toNat * h.toNat * 4) k ∧
      ((raw.drop (ptr + 8)).take (w.toNat * h.toNat * 4)).length =
        w.toNat * h.toNat * 4)
    ∧ (parseMatFixedOld inflate s = .ok fx →
      parse_material_block_v1_old inflate pngE s =
        .ok ({ material_blocks := fx.material_blocks,
               material_name := fx.material_name,
               textures := readMapsOld pngE fx.raw fx.ptr
                             fx.hdr.map_type_count.toNat,
               texture_ids := fx.texture_ids, uvs_internal := fx.uvs,
               face_uvs_internal := fx.face_uvs }, fx.vertices, fx.faces,
              fx.hdr.rest)) := by
  have hnotlt : ¬ raw.length < ptr + 8 := not_lt.mpr h8
  have hbc : min (w.toNat * h.toNat * 4) (raw.length - (ptr + 8)) =
      w.toNat * h.toNat * 4 := by omega
  have hlen : ((raw.drop (ptr + 8)).take (w.toNat * h.toNat * 4)).length =
      w.toNat * h.toNat * 4 := by
    simp only [List.length_take, List.length_drop]
    omega
  refine ⟨?_, ?_, ?_⟩
  · intro hpng
    rw [readMapsOld_succ, if_neg hnotlt]
    dsimp only
    rw [← hw, ← hh, if_neg (by push_neg; exact ⟨hwp, hhp⟩), hbc]
    simp only [hpng]
  · intro hpng
    refine ⟨?_, hlen⟩
    rw [readMapsOld_succ, if_neg hnotlt]
    dsimp only
    rw [← hw, ← hh, if_neg (by push_neg; exact ⟨hwp, hhp⟩), hbc]
    simp only [hpng]
  · intro hfx
    unfold parse_material_block_v1_old
    simp only [hfx]

/-- C6 witness: a 1 by 1 legacy map with its 4 RGBA bytes present: a
succeeding encoder stores the PNG bytes with is_png true and size hint
(1, 1); a failing encoder stores the raw 4 bytes with is_png false and the
same hint; and the legacy fixture parses successfully under the failing
encoder. -/
theorem C6_witness :
    readMapsOld pngSome [1, 0, 0, 0, 1, 0, 0, 0, 10, 20, 30, 40] 0 1 =
      [{ data := [7, 7], is_png := true, size_hint := some (1, 1) }] ∧
    readMapsOld pngNone [1, 0, 0, 0, 1, 0, 0, 0, 10, 20, 30, 40] 0 1 =
      [{ data := [10, 20, 30, 40], is_png := false,
         size_hint := some (1, 1) }] ∧
    parse_material_block_v1_old inflate0 pngNone (fileLegacy.drop 16) =
      .ok ({ material_blocks := [], material_name := none, textures := [],
             texture_ids := none, uvs_internal := none,
             face_uvs_internal := none }, [], [], []) := by
  refine ⟨?_, ?_, ?_⟩
  · exact (C6_legacy_textures inflate0 pngSome
      [1, 0, 0, 0, 1, 0, 0, 0, 10, 20, 30, 40] [] 0 0 1 1 [7, 7]
      ⟨⟨0, 0, 0, 0, 0, 0, 0, [], 0, 0, 0, [], []⟩, [], [], [], none, none,
        none, [], none, 0⟩ (by norm_num) (by decide) (by decide)
      (by norm_num) (by norm_num) (by norm_num)).1 rfl
  · exact ((C6_legacy_textures inflate0 pngNone
      [1, 0, 0, 0, 1, 0, 0, 0, 10, 20, 30, 40] [] 0 0 1 1 []
      ⟨⟨0, 0, 0, 0, 0, 0, 0, [], 0, 0, 0, [], []⟩, [], [], [], none, none,
        none, [], none, 0⟩ (by norm_num) (by decide) (by decide)
      (by norm_num) (by norm_num) (by norm_num)).2.1 rfl).1
  · exact (C6_legacy_textures inflate0 pngNone
      [1, 0, 0, 0, 1, 0, 0, 0, 10, 20, 30, 40] (fileLegacy.drop 16)
      0 0 1 1 [] _ (by norm_num) (by decide) (by decide)
      (by norm_num) (by norm_num) (by norm_num)).2.2 rfl

/-- One-step unfolding of the blob loop at a cons cell. -/
theorem takeBlobs_cons (raw : ByteBuf) (ptr : Nat) (sz : Int)
    (rest : List Int) (err : CxErr) :
    takeBlobs raw ptr (sz :: rest) err =
      if 0 < sz then
        match pyTake raw ptr sz err with
        | .error e => .error e
        | .ok (b, ptr1) =>
          match takeBlobs raw ptr1 rest err with
          | .error e => .error e
          | .ok (bs, ptr2) => .ok (b :: bs, ptr2)
      else
        match takeBlobs raw ptr rest err with
        | .error e => .error e
        | .ok (bs, ptr1) => .ok ([] :: bs, ptr1) := rfl

/-- C10 counterexample: a new material stream declaring material count -1
parses successfully (the size loop runs zero times), yet the blob list has
length 0, not the declared count -1. -/
theorem C10_counterexample :
    (parse_material_block_v1_new inflate0 matNegCountStream).map
        (fun r => r.1.material_blocks.length) = .ok 0 ∧
    (readMatHeaderNew matNegCountStream).map (fun x => x.material_num) =
      .ok (-1) :=
  ⟨rfl, rfl⟩

/-- C10 (amended): in both material parsers a declared per-material size
that is zero or negative yields an empty blob and no error, and when the
blob-reading phase completes the blob list length equals the number of
size entries, which is max 0 of the declared material count (so it equals
the declared count exactly when that count is nonnegative). -/
theorem C10_blobs (raw : ByteBuf) (ptr : Nat) (sz : Int) (sizes : List Int)
    (err : CxErr) (bs : List ByteBuf) (p : Nat) (s s2 : ByteBuf)
    (h : MatHeaderNew) (h2 : MatHeaderOld) :
    (takeBlobs raw ptr sizes err = .ok (bs, p) → bs.length = sizes.length)
    ∧ (sz ≤ 0 → takeBlobs raw ptr (sz :: sizes) err =
        (takeBlobs raw ptr sizes err).map (fun r => ([] :: r.1, r.2)))
    ∧ (readMatHeaderNew s = .ok h →
        h.material_sizes.length = h.material_num.toNat)
    ∧ (readMatHeaderOld s2 = .ok h2 →
        h2.material_sizes.length = h2.material_num.toNat) := by
  refine ⟨fun hb => takeBlobs_length sizes raw ptr err bs p hb, ?_, ?_, ?_⟩
  · intro hsz
    rw [takeBlobs_cons, if_neg (not_lt.mpr hsz)]
    cases htb : takeBlobs raw ptr sizes err with
    | error e => simp [htb, Except.map]
    | ok r => simp [htb, Except.map]
  · intro hhdr
    unfold readMatHeaderNew at hhdr
    repeat' split at hhdr
    all_goals try (cases hhdr)
    · simp only []
      exact readIntList_length _ _ _ _ (by assumption)
  · intro hhdr
    unfold readMatHeaderOld at hhdr
    repeat' split at hhdr
    all_goals try (cases hhdr)
    · simp only []
      exact readIntList_length _ _ _ _ (by assumption)

/-- C10 witness: sizes 2, -1, 0 against the buffer 1, 2, 3 produce blobs of
lengths 2, 0, 0 — three blobs for three sizes; prefixing a negative size -5
adds an empty blob; the negative-count fixture header has zero size entries
for declared count -1, and the legacy fixture zero entries for count 0. -/
theorem C10_witness :
    ([[1, 2], [], []] : List ByteBuf).length =
      ([2, -1, 0] : List Int).length ∧
    takeBlobs [1, 2, 3] 0 ((-5) :: [2, -1, 0]) .matTruncated =
      (takeBlobs [1, 2, 3] 0 [2, -1, 0] .matTruncated).map
        (fun r => ([] :: r.1, r.2)) ∧
    (⟨0, 0, 0, 0, -1, [], 0, 0, 8, zlibEmptyStream, []⟩ :
        MatHeaderNew).material_sizes.length =
      ((⟨0, 0, 0, 0, -1, [], 0, 0, 8, zlibEmptyStream, []⟩ :
        MatHeaderNew).material_num).toNat ∧
    (⟨0, 0, 0, 0, 0, 0, 0, [], 0, 0, 8, zlibEmptyStream, []⟩ :
        MatHeaderOld).material_sizes.length =
      ((⟨0, 0, 0, 0, 0, 0, 0, [], 0, 0, 8, zlibEmptyStream, []⟩ :
        MatHeaderOld).material_num).toNat := by
  have H := C10_blobs [1, 2, 3] 0 (-5) [2, -1, 0] .matTruncated
    [[1, 2], [], []] 2 matNegCountStream (fileLegacy.drop 16)
    ⟨0, 0, 0, 0, -1, [], 0, 0, 8, zlibEmptyStream, []⟩
    ⟨0, 0, 0, 0, 0, 0, 0, [], 0, 0, 8, zlibEmptyStream, []⟩
  exact ⟨H.1 rfl, H.2.1 (by norm_num), H.2.2.1 rfl, H.2.2.2 rfl⟩

end Cxbin
